import Mathlib

/-!
Verification of the PAWS CLI fragment (`paws/utils.py` and
`paws/clis/evaluation.py`) against its natural-language specification.

The Python code is shallowly embedded: pure helper functions become Lean
functions, exception-raising functions return `Except PyError`, and the two
CLI command bodies become functions producing an explicit list of side
effects.  Components of the repository that are not part of the fragment
(`paws/settings.py`, `paws/components`) are either modelled from the spec
(with a doc comment saying so) or abstracted as environment parameters.
-/


/-- Python exceptions that the embedded fragment can raise.  A `nameError`
carries the undefined identifier, the others carry the message. -/
inductive PyError where
  | valueError (msg : String)
  | nameError (name : String)
  | keyError (key : String)
  | zeroDivisionError (msg : String)
  deriving DecidableEq

/-- Modelled from the spec: the constants imported from `paws/settings.py`,
which is not under `src/`.  `SIGMOID_ACTIVATION` selects the sigmoid branch
of the parameter transforms; `MASS_SCALE` is the mass rescaling factor.
Their concrete values are not fixed by the fragment, so both are left
abstract and every theorem quantifies over them. -/
structure PawsSettings where
  SIGMOID_ACTIVATION : Bool
  MASS_SCALE : ℚ
  deriving DecidableEq

/-- Modelled from the spec: `SEMI_WEAKLY_PARAMETERS` from `paws/settings.py`
(not under `src/`), the fixed physics-parameter set of the semi-weakly
model: m1, m2, mu, alpha. -/
def SEMI_WEAKLY_PARAMETERS : List String := ["m1", "m2", "mu", "alpha"]

/-- Keras activation objects from `aliad.interface.keras.activations`
(external library), as constructed by `get_parameter_transform`. -/
inductive Activation where
  | Scale (factor : ℚ)
  | Exponential
  | Linear
  | Sigmoid
  deriving DecidableEq

/-- The object obtained by reading the `.inverse` attribute of an activation
(external library behaviour, kept abstract as a tagged wrapper). -/
structure ActivationInverse where
  of : Activation
  deriving DecidableEq

/-- The `.inverse` attribute access on an activation object. -/
def Activation.inverse (a : Activation) : ActivationInverse := ⟨a⟩

/-- Embedding of `paws.utils.get_parameter_transform`.  For `m1`/`m2` it
returns `Scale(1 / MASS_SCALE)`; for `mu`/`alpha` with sigmoid activation
enabled the source line `return actiations.Sigmoid()` references the
undefined name `actiations` and raises a `NameError`; otherwise `mu` gets
`Exponential()` and `alpha` gets `Linear()`; any other parameter name
raises a `ValueError`. -/
def get_parameter_transform (st : PawsSettings) (parameter : String) :
    Except PyError Activation :=
  if parameter = "m1" ∨ parameter = "m2" then
    .ok (.Scale (1 / st.MASS_SCALE))
  else if parameter = "mu" ∨ parameter = "alpha" then
    if st.SIGMOID_ACTIVATION then
      .error (.nameError "actiations")
    else if parameter = "mu" then
      .ok .Exponential
    else
      .ok .Linear
  else
    .error (.valueError ("unknown parameter for semi-weakly model: " ++ parameter))

/-- Embedding of `paws.utils.get_parameter_inverse_transform`:
`get_parameter_transform(parameter).inverse`, with any exception
propagating. -/
def get_parameter_inverse_transform (st : PawsSettings) (parameter : String) :
    Except PyError ActivationInverse :=
  (get_parameter_transform st parameter).map Activation.inverse

/-- Embedding of `paws.utils.get_parameter_transforms`: builds a dict over
`SEMI_WEAKLY_PARAMETERS` in order (represented as an association list,
matching Python dict insertion order); the first exception raised inside
the loop propagates. -/
def get_parameter_transforms (st : PawsSettings) :
    Except PyError (List (String × Activation)) :=
  SEMI_WEAKLY_PARAMETERS.foldr
    (fun p acc => do
      let t ← get_parameter_transform st p
      let rest ← acc
      pure ((p, t) :: rest))
    (pure [])

/-- Embedding of `paws.utils.get_parameter_inverse_transforms`: like
`get_parameter_transforms` but each entry is
`get_parameter_inverse_transform(parameter)`. -/
def get_parameter_inverse_transforms (st : PawsSettings) :
    Except PyError (List (String × ActivationInverse)) :=
  SEMI_WEAKLY_PARAMETERS.foldr
    (fun p acc => do
      let t ← get_parameter_inverse_transform st p
      let rest ← acc
      pure ((p, t) :: rest))
    (pure [])

/-- Python values passed as keyword arguments to the CLI entry points. -/
inductive PyVal where
  | bool (b : Bool)
  | int (n : Int)
  | rat (q : ℚ)
  | str (s : String)
  | none
  deriving DecidableEq

/-- Python truthiness of a value, as used by `if init_kwargs.pop("high_level")`. -/
def PyVal.truthy : PyVal → Bool
  | .bool b => b
  | .int n => n != 0
  | .rat q => q != 0
  | .str s => s != ""
  | .none => false

/-- The `kCommonKeys` list from `paws/clis/evaluation.py`. -/
def kCommonKeys : List String :=
  ["high_level", "decay_modes", "variables", "noise_dimension",
   "index_path", "split_index", "seed", "batchsize", "cache_dataset",
   "datadir", "outdir", "cache", "multi_gpu", "verbosity", "loss"]

/-- The arguments with which `get_model_trainer` constructs the external
`ModelTrainer`: the positional model type, the keyword arguments taken from
`kCommonKeys`, and the residual keyword arguments passed as
`model_options`.  Keyword-argument dictionaries are represented as
functions from key to optional value. -/
structure TrainerArgs where
  model_type : String
  init_kwargs : String → Option PyVal
  model_options : String → Option PyVal

/-- Embedding of `get_model_trainer` from `paws/clis/evaluation.py`: the
keys of `kCommonKeys` present in `kwargs` are popped into `init_kwargs`,
the remaining kwargs become `model_options`, `high_level` is popped from
`init_kwargs` (a `KeyError` if absent) to compute a `feature_level` string
that is never used, and the `ModelTrainer` is constructed from what is
left. -/
def get_model_trainer (model_type : String) (kwargs : String → Option PyVal) :
    Except PyError TrainerArgs :=
  let init0 : String → Option PyVal :=
    fun k => if k ∈ kCommonKeys then kwargs k else Option.none
  let model_options : String → Option PyVal :=
    fun k => if k ∈ kCommonKeys then Option.none else kwargs k
  match init0 "high_level" with
  | Option.none => Except.error (PyError.keyError "high_level")
  | Option.some hl =>
      let _feature_level : String :=
        if hl.truthy then "high_level" else "low_level"
      Except.ok ⟨model_type,
        fun k => if k = "high_level" then Option.none else init0 k,
        model_options⟩

/-- Pointwise update of a keyword-argument dictionary at one key. -/
def updateKey (f : String → Option PyVal) (key : String) (v : PyVal) :
    String → Option PyVal :=
  fun x => if x = key then Option.some v else f x

/-- Python `str.startswith`, modelled on character lists. -/
def listStartsWith : List Char → List Char → Bool
  | _, [] => true
  | [], _ :: _ => false
  | c :: cs, p :: ps => c == p && listStartsWith cs ps

/-- Python `str.startswith` on strings. -/
def pyStartsWith (s pre : String) : Bool :=
  listStartsWith s.toList pre.toList

/-- Fuel-indexed core of Python `str.replace`: replaces non-overlapping
occurrences of `pat` left to right.  The fuel is an upper bound on the
remaining input length; callers pass the input length, and each step
consumes at least one input character whenever `pat` is non-empty. -/
def replaceFuel (pat rep : List Char) : Nat → List Char → List Char
  | 0, s => s
  | Nat.succ n, s =>
    match s with
    | [] => []
    | c :: cs =>
      if !pat.isEmpty && listStartsWith s pat then
        rep ++ replaceFuel pat rep n (s.drop pat.length)
      else
        c :: replaceFuel pat rep n cs

/-- Python `str.replace(pattern, replacement)` for a non-empty pattern (the
only way the fragment calls it); with an empty pattern the input is
returned unchanged. -/
def pyReplace (s pat rep : String) : String :=
  String.mk (replaceFuel pat.toList rep.toList s.toList.length s.toList)

/-- Digit-string to natural number, `Option.none` unless every character is
a decimal digit. -/
def natOfDigits (cs : List Char) : Option Nat :=
  if cs.all Char.isDigit then
    Option.some (cs.foldl (fun a c => a * 10 + (c.toNat - 48)) 0)
  else Option.none

/-- Split a character list at the first character satisfying `p`; the
second component is `Option.none` when no such character occurs. -/
def splitFirst (p : Char → Bool) : List Char → List Char × Option (List Char)
  | [] => ([], Option.none)
  | c :: cs =>
    if p c then ([], Option.some cs)
    else
      let r := splitFirst p cs
      (c :: r.1, r.2)

/-- The digits of a parsed Python float literal: sign, integer part,
fractional part with its digit count, exponent sign and exponent. -/
structure FloatRep where
  neg : Bool
  ipn : Nat
  fpn : Nat
  fplen : Nat
  eneg : Bool
  e : Nat
  deriving DecidableEq

/-- Unsigned part of Python `float(...)` literal parsing: decimal mantissa
with optional fractional part and optional decimal exponent. -/
def parseUnsignedFloat (cs : List Char) : Option FloatRep :=
  let me := splitFirst (fun c => c == 'e' || c == 'E') cs
  let ifp := splitFirst (fun c => c == '.') me.1
  let ip := ifp.1
  let fp := (ifp.2).getD []
  if ip.isEmpty && fp.isEmpty then Option.none
  else do
    let ipn ← if ip.isEmpty then Option.some 0 else natOfDigits ip
    let fpn ← if fp.isEmpty then Option.some 0 else natOfDigits fp
    match me.2 with
    | Option.none => Option.some ⟨false, ipn, fpn, fp.length, false, 0⟩
    | Option.some ecs =>
        let se : Bool × List Char := match ecs with
          | '-' :: rest => (true, rest)
          | '+' :: rest => (false, rest)
          | _ => (false, ecs)
        if se.2.isEmpty then Option.none
        else do
          let e ← natOfDigits se.2
          Option.some ⟨false, ipn, fpn, fp.length, se.1, e⟩

/-- Parse a Python float literal into its digit representation. -/
def parseFloatRep (s : String) : Option FloatRep :=
  match s.toList with
  | [] => Option.none
  | '-' :: rest => (parseUnsignedFloat rest).map (fun r => { r with neg := true })
  | '+' :: rest => parseUnsignedFloat rest
  | cs => parseUnsignedFloat cs

/-- The rational value of a parsed float literal. -/
def ratOfFloatRep (r : FloatRep) : ℚ :=
  let base : ℚ := (r.ipn : ℚ) + (r.fpn : ℚ) / (10 : ℚ) ^ r.fplen
  let scaled : ℚ := if r.eneg then base / (10 : ℚ) ^ r.e else base * (10 : ℚ) ^ r.e
  if r.neg then -scaled else scaled

/-- Python `float(string)` for finite decimal and scientific literals,
returning `Option.none` where Python raises `ValueError`. -/
def pyFloatOfString (s : String) : Option ℚ :=
  (parseFloatRep s).map ratOfFloatRep

/-- A metric request produced by `get_metric` inside
`gather_model_results`: either a bare metric name passed through, or a
`(name, helper, fpr_thres)` triple for the threshold-significance
helper. -/
inductive MetricSpec where
  | plain (name : String)
  | request (name : String) (helper : String) (fpr_thres : ℚ)
  deriving DecidableEq

/-- The metric names admitted by the `--metrics` option of
`gather_model_results` (its `click.Choice`). -/
def metricChoices : List String :=
  ["auc", "accuracy", "log_loss", "sic_1e3", "sic_1e4", "sic_1e5"]

/-- Embedding of the local `get_metric` helper of `gather_model_results`:
a name starting with `sic_` becomes
`(name, 'threshold_significance', fpr_thres := 1 / float(name.replace("sic_", "")))`,
with Python's `ValueError` on an unparsable float and `ZeroDivisionError`
on a zero divisor; any other name is returned unchanged. -/
def get_metric (name : String) : Except PyError MetricSpec :=
  if pyStartsWith name "sic_" then
    match pyFloatOfString (pyReplace name "sic_" "") with
    | Option.none =>
        Except.error (PyError.valueError (pyReplace name "sic_" ""))
    | Option.some v =>
        if v = 0 then
          Except.error (PyError.zeroDivisionError "float division by zero")
        else
          Except.ok (MetricSpec.request name "threshold_significance" (1 / v))
  else
    Except.ok (MetricSpec.plain name)

/-- Association-list lookup for Python dictionaries. -/
def lookupParam {α : Type} : List (String × α) → String → Option α
  | [], _ => Option.none
  | (k', v) :: ps, k => if k' = k then Option.some v else lookupParam ps k

/-- Python dictionary assignment `d[k] = v`: replace the value in place if
the key is present, append otherwise (insertion order preserved). -/
def setKey {α : Type} : List (String × α) → String → α → List (String × α)
  | [], k, v => [(k, v)]
  | (k', v') :: ps, k, v =>
      if k' = k then (k, v) :: ps else (k', v') :: setKey ps k v

/-- The directory part of a POSIX path, as in `os.path.dirname` for
relative multi-component paths: everything before the last slash. -/
def dirname (p : String) : String :=
  let rev := p.toList.reverse
  match rev.dropWhile (fun c => !(c == '/')) with
  | [] => ""
  | _ :: t => String.mk t.reverse

/-- `os.path.join` for a relative second component. -/
def joinPath (a b : String) : String := a ++ "/" ++ b

/-- The opening brace character. -/
def lbrace : Char := Char.ofNat 123

/-- The closing brace character. -/
def rbrace : Char := Char.ofNat 125

/-- Fuel-indexed core of Python `str.format` for simple named
placeholders, with Python's error behaviour: a placeholder key absent from
the keys raises `KeyError(name)`, a brace inside a field name and an
unmatched opening or closing brace raise `ValueError`, and doubled braces
are the escapes for literal braces.  The fuel is an upper bound on the
remaining input length; each step consumes at least one input character. -/
def formatFuel (keys : List (String × String)) :
    Nat → List Char → Except PyError (List Char)
  | 0, s => Except.ok s
  | Nat.succ _, [] => Except.ok []
  | Nat.succ n, c :: cs =>
      if c == lbrace then
        match cs with
        | [] =>
            Except.error
              (PyError.valueError "Single \x7b encountered in format string")
        | c2 :: cs2 =>
            if c2 == lbrace then
              (formatFuel keys n cs2).map (fun r => lbrace :: r)
            else
              match splitFirst (fun d => d == rbrace) cs with
              | (name, Option.some rest) =>
                  if name.contains lbrace then
                    Except.error
                      (PyError.valueError "unexpected \x7b in field name")
                  else
                    match lookupParam keys (String.mk name) with
                    | Option.some v =>
                        (formatFuel keys n rest).map (fun r => v.toList ++ r)
                    | Option.none =>
                        Except.error (PyError.keyError (String.mk name))
              | (_, Option.none) =>
                  Except.error
                    (PyError.valueError
                      "Single \x7b encountered in format string")
      else if c == rbrace then
        match cs with
        | [] =>
            Except.error
              (PyError.valueError "Single \x7d encountered in format string")
        | c2 :: cs2 =>
            if c2 == rbrace then
              (formatFuel keys n cs2).map (fun r => rbrace :: r)
            else
              Except.error
                (PyError.valueError "Single \x7d encountered in format string")
      else (formatFuel keys n cs).map (fun r => c :: r)

/-- Python `template.format(**keys)` for simple named placeholders,
raising where Python raises. -/
def formatTemplate (template : String) (keys : List (String × String)) :
    Except PyError String :=
  (formatFuel keys template.toList.length template.toList).map String.mk

/-- `split_str(s, sep=',', remove_empty=True)` from the external
`quickstats` string utilities: split on commas and drop empty pieces. -/
def splitStrComma (s : String) : List String :=
  ((s.toList.foldr (fun c acc =>
      if c == ',' then [] :: acc
      else match acc with
        | [] => [[c]]
        | g :: gs => (c :: g) :: gs) [[]]).map String.mk).filter
    (fun x => x ≠ "")

/-- The value of the `metrics` variable of `compute_semi_weakly_landscape`
after the `if metrics: metrics = split_str(...)` step: Python `None`, a
falsy (empty) string left unsplit, or the comma-split list. -/
inductive PyMetrics where
  | pyNone
  | raw (s : String)
  | parts (l : List String)
  deriving DecidableEq

/-- Modelled from the spec: the `ModelType` enumeration from
`paws/settings.py`, which is not under `src/`.  The spec names the model
types `SEMI_WEAKLY` and `IDEAL_WEAKLY` and implies further (supervised)
model types; each has a string key used to index loaded results. -/
inductive ModelType where
  | DEDICATED_SUPERVISED
  | PARAM_SUPERVISED
  | SEMI_WEAKLY
  | IDEAL_WEAKLY
  deriving DecidableEq

/-- The string key of a model type, used to index `result_loader.dfs`. -/
def ModelType.key : ModelType → String
  | .DEDICATED_SUPERVISED => "dedicated_supervised"
  | .PARAM_SUPERVISED => "param_supervised"
  | .SEMI_WEAKLY => "semi_weakly"
  | .IDEAL_WEAKLY => "ideal_weakly"

/-- The observable side effects of the two CLI command bodies, in order of
occurrence: log lines, dataset/model construction, landscape evaluation,
directory creation, file writes, result loading, trial merging, metric
decoration, and a propagated Python exception. -/
inductive Effect where
  | info (msg : String)
  | warning (msg : String)
  | getDatasets
  | getModel
  | evalLandscape (param_expr : String) (metrics : PyMetrics)
      (nbootstrap : Option Nat) (seed : Int)
  | makedirs (dir : String)
  | writeJson (path : String) (encoder : String)
  | loadResults
  | mergeTrials (topk : Nat) (score_reduce_method : String)
      (weight_reduce_method : String)
  | decorateResults (metrics : List MetricSpec)
  | saveParquet (path : String) (detailed : Bool)
  | raised (e : PyError)
  deriving DecidableEq

/-- Whether an effect writes a JSON file. -/
def Effect.isWriteJson : Effect → Bool
  | .writeJson _ _ => true
  | _ => false

/-- Whether an effect writes a Parquet file. -/
def Effect.isSaveParquet : Effect → Bool
  | .saveParquet _ _ => true
  | _ => false

/-- The CLI options of `compute_semi_weakly_landscape` that the command
body consumes directly. -/
structure LandscapeConfig where
  mass_point : String
  mu : ℚ
  alpha : ℚ
  split_index : Int
  tag : String
  param_expr : String
  metrics : Option String
  nbootstrap : Option Nat
  seed : Int
  cache : Bool

/-- The external collaborators of `compute_semi_weakly_landscape`:
`model_loader._get_param_repr()`, `path_manager.process_parameters`,
`path_manager.get_file` (all in `paws.components`, not under `src/`) and
the filesystem existence check, abstracted as data. -/
structure LandscapeEnv where
  param_repr : List (String × PyVal)
  process_parameters : List (String × PyVal) → List (String × PyVal)
  get_file : String → List (String × PyVal) → String → String
  fs_exists : String → Bool

/-- The parameter dictionary before `process_parameters`: the model
loader's parameter representation updated with the mass point, mu, alpha
and split index, in source order. -/
def landscape_pre_parameters (cfg : LandscapeConfig) (env : LandscapeEnv) :
    List (String × PyVal) :=
  setKey (setKey (setKey (setKey env.param_repr
    "mass_point" (.str cfg.mass_point))
    "mu" (.rat cfg.mu))
    "alpha" (.rat cfg.alpha))
    "split_index" (.int cfg.split_index)

/-- The fully resolved parameter dictionary: processed by the path manager,
then updated with the tag. -/
def landscape_resolved_parameters (cfg : LandscapeConfig) (env : LandscapeEnv) :
    List (String × PyVal) :=
  setKey (env.process_parameters (landscape_pre_parameters cfg env))
    "tag" (.str cfg.tag)

/-- The landscape output path:
`path_manager.get_file("semi_weakly_landscape", **parameters, ds_type="train")`. -/
def landscape_outname (cfg : LandscapeConfig) (env : LandscapeEnv) : String :=
  env.get_file "semi_weakly_landscape" (landscape_resolved_parameters cfg env)
    "train"

/-- The `metrics` variable after the conditional split. -/
def landscape_metrics (cfg : LandscapeConfig) : PyMetrics :=
  match cfg.metrics with
  | Option.none => PyMetrics.pyNone
  | Option.some s =>
      if s = "" then PyMetrics.raw s else PyMetrics.parts (splitStrComma s)

/-- Embedding of the body of the `compute_semi_weakly_landscape` command:
if caching is enabled and the output file exists, log the cache hit and
return; otherwise build the datasets and model, evaluate the landscape,
create the output directory and write the JSON result with `NpEncoder`. -/
def compute_semi_weakly_landscape (cfg : LandscapeConfig) (env : LandscapeEnv) :
    List Effect :=
  if cfg.cache && env.fs_exists (landscape_outname cfg env) then
    [Effect.info ("Cached semi-weakly model landscape output from " ++
      landscape_outname cfg env)]
  else
    [Effect.getDatasets, Effect.getModel,
     Effect.evalLandscape cfg.param_expr (landscape_metrics cfg)
       cfg.nbootstrap cfg.seed,
     Effect.makedirs (dirname (landscape_outname cfg env)),
     Effect.writeJson (landscape_outname cfg env) "NpEncoder",
     Effect.info ("Saved semi-weakly model landscape output to " ++
       landscape_outname cfg env)]

/-- The CLI options of `gather_model_results` that the command body
consumes directly (the filter lists are folded into the abstract loaded
result set). -/
structure GatherConfig where
  model_type : String
  topk : Nat
  score_reduce_method : String
  weight_reduce_method : String
  metrics : List String
  detailed : Bool
  filename : String

/-- The external collaborators of `gather_model_results`:
`ModelType.parse`, the keys of `result_loader.dfs` after loading,
`result_loader._get_param_repr()` and the `combined_result` directory of
the path manager (all in `paws.settings` or `paws.components`, not under
`src/`), abstracted as data. -/
structure GatherEnv where
  parse : String → ModelType
  dfs_keys : List String
  param_repr : List (String × String)
  combined_dir : String

/-- The filename substitution keys: the result loader's parameter
representation updated with the parsed model type's key. -/
def gather_format_keys (cfg : GatherConfig) (env : GatherEnv) :
    List (String × String) :=
  setKey env.param_repr "model_type" (env.parse cfg.model_type).key

/-- The output path of `gather_model_results`: the formatted filename
joined onto the `combined_result` directory, with a formatting exception
propagating. -/
def gather_outname (cfg : GatherConfig) (env : GatherEnv) :
    Except PyError String :=
  (formatTemplate cfg.filename (gather_format_keys cfg env)).map
    (joinPath env.combined_dir)

/-- Embedding of the body of the `gather_model_results` command: load the
filtered results; if the parsed model type's key is absent from the loaded
results, warn and return; otherwise merge trials for the semi-weakly and
ideal-weakly model types only, translate the metric names (a raised
exception propagating), decorate the results, create the
`combined_result` directory, format the output filename (a raised
exception propagating) and save one Parquet file there. -/
def gather_model_results (cfg : GatherConfig) (env : GatherEnv) : List Effect :=
  if (env.parse cfg.model_type).key ∉ env.dfs_keys then
    [Effect.loadResults, Effect.warning "No results to save. Skipping."]
  else
    [Effect.loadResults] ++
    (if env.parse cfg.model_type = ModelType.SEMI_WEAKLY ∨
        env.parse cfg.model_type = ModelType.IDEAL_WEAKLY
      then [Effect.mergeTrials cfg.topk cfg.score_reduce_method
        cfg.weight_reduce_method]
      else []) ++
    (match cfg.metrics.mapM get_metric with
     | Except.error e => [Effect.raised e]
     | Except.ok mspecs =>
        [Effect.decorateResults mspecs,
         Effect.makedirs env.combined_dir] ++
        (match formatTemplate cfg.filename (gather_format_keys cfg env) with
         | Except.error e => [Effect.raised e]
         | Except.ok fname =>
            [Effect.saveParquet (joinPath env.combined_dir fname)
              cfg.detailed]))

/-- Concrete cache-hit scenario: caching on, output file present. -/
def landscapeCfgCached : LandscapeConfig :=
  ⟨"300:300", 1/2, 1/2, 0, "default", "m1=0_600_10", Option.none, Option.none,
    2023, true⟩

/-- Concrete environment whose filesystem reports the output as existing. -/
def landscapeEnvCached : LandscapeEnv :=
  ⟨[], id, fun _ _ _ => "outputs/landscape/result.json", fun _ => true⟩

/-- Concrete fresh-computation scenario: caching disabled. -/
def landscapeCfgFresh : LandscapeConfig :=
  ⟨"300:300", 1/2, 1/2, 0, "default", "m1=0_600_10",
    Option.some "auc,log_loss", Option.some 100, 2023, false⟩

/-- Concrete environment whose filesystem reports no existing output. -/
def landscapeEnvFresh : LandscapeEnv :=
  ⟨[("noise_dimension", PyVal.int 0)], id,
    fun _ _ _ => "outputs/landscape/result.json", fun _ => false⟩

/-- Concrete gather configuration for the semi-weakly model. -/
def gatherCfgW : GatherConfig :=
  ⟨"semi_weakly", 5, "mean", "median", ["auc", "log_loss"], false,
    "{model_type}_{feature_level}_{decay_mode}.parquet"⟩

/-- Concrete gather environment with no stored results for any model. -/
def gatherEnvEmpty : GatherEnv :=
  ⟨fun _ => ModelType.SEMI_WEAKLY, [],
    [("feature_level", "high_level"), ("decay_mode", "qq")],
    "outputs/combined_result"⟩

/-- Concrete gather environment with stored semi-weakly results. -/
def gatherEnvFull : GatherEnv :=
  ⟨fun _ => ModelType.SEMI_WEAKLY, ["semi_weakly"],
    [("feature_level", "high_level"), ("decay_mode", "qq")],
    "outputs/combined_result"⟩

/-- Concrete gather configuration whose filename template references a
substitution key absent from the format keys. -/
def gatherCfgBadTemplate : GatherConfig :=
  ⟨"semi_weakly", 5, "mean", "median", ["auc", "log_loss"], false,
    "{bogus}.parquet"⟩

/-- Claim C5 -- Every parameter name outside {m1, m2, mu, alpha} makes
`get_parameter_transform` raise a `ValueError` naming the invalid
parameter, for any settings; in particular it never returns a transform
for such a name. -/
theorem get_parameter_transform_unknown (st : PawsSettings) (p : String)
    (h : p ∉ SEMI_WEAKLY_PARAMETERS) :
    get_parameter_transform st p =
      .error (.valueError ("unknown parameter for semi-weakly model: " ++ p)) := by
  simp only [SEMI_WEAKLY_PARAMETERS, List.mem_cons, List.not_mem_nil, or_false] at h
  push_neg at h
  obtain ⟨h1, h2, h3, h4⟩ := h
  simp [get_parameter_transform, h1, h2, h3, h4]

/-- Witness for C5: the parameter name `beta` is outside the fixed set and
raises the `ValueError`. -/
theorem get_parameter_transform_unknown_witness :
    "beta" ∉ SEMI_WEAKLY_PARAMETERS ∧
    get_parameter_transform ⟨false, 1⟩ "beta" =
      .error (.valueError ("unknown parameter for semi-weakly model: " ++ "beta")) :=
  ⟨by decide, get_parameter_transform_unknown ⟨false, 1⟩ "beta" (by decide)⟩

/-- Claim C8 -- For parameter `mu` or `alpha`: when `SIGMOID_ACTIVATION` is false
an activation is returned, and when it is true the branch referencing the
undefined name `actiations` raises a `NameError` instead of returning a
Sigmoid activation. -/
theorem get_parameter_transform_sigmoid_name_bug (ms : ℚ) (p : String)
    (h : p = "mu" ∨ p = "alpha") :
    (∃ a, get_parameter_transform ⟨false, ms⟩ p = .ok a) ∧
    get_parameter_transform ⟨true, ms⟩ p = .error (.nameError "actiations") := by
  rcases h with h | h <;> subst h <;>
    exact ⟨⟨_, rfl⟩, rfl⟩

/-- Witness for C8: evaluated at parameter `mu` with mass scale 1. -/
theorem get_parameter_transform_sigmoid_name_bug_witness :
    ("mu" = "mu" ∨ "mu" = "alpha") ∧
    ((∃ a, get_parameter_transform ⟨false, 1⟩ "mu" = .ok a) ∧
      get_parameter_transform ⟨true, 1⟩ "mu" = .error (.nameError "actiations")) :=
  ⟨Or.inl rfl, get_parameter_transform_sigmoid_name_bug 1 "mu" (Or.inl rfl)⟩

/-- Claim C10 -- Whenever `get_parameter_transforms` and
`get_parameter_inverse_transforms` return, the returned mappings have key
set exactly `SEMI_WEAKLY_PARAMETERS` (in order), and each parameter `p` is
mapped to the value of `get_parameter_transform p` in the first and to its
`.inverse` in the second. -/
theorem get_parameter_transforms_spec (st : PawsSettings)
    (m : List (String × Activation)) (mi : List (String × ActivationInverse))
    (hm : get_parameter_transforms st = .ok m)
    (hmi : get_parameter_inverse_transforms st = .ok mi) :
    m.map Prod.fst = SEMI_WEAKLY_PARAMETERS ∧
    mi.map Prod.fst = SEMI_WEAKLY_PARAMETERS ∧
    (∀ p t, (p, t) ∈ m → get_parameter_transform st p = .ok t) ∧
    (∀ p t, (p, t) ∈ mi → get_parameter_inverse_transform st p = .ok t) ∧
    (∀ p t, (p, t) ∈ m → (p, t.inverse) ∈ mi) := by
  obtain ⟨sig, ms⟩ := st
  cases sig with
  | true =>
      have hF : get_parameter_transforms ⟨true, ms⟩ =
          .error (.nameError "actiations") := rfl
      rw [hF] at hm
      exact Except.noConfusion hm
  | false =>
      have hM : get_parameter_transforms ⟨false, ms⟩ =
          .ok [("m1", Activation.Scale (1 / ms)),
            ("m2", Activation.Scale (1 / ms)),
            ("mu", Activation.Exponential), ("alpha", Activation.Linear)] := rfl
      have hMi : get_parameter_inverse_transforms ⟨false, ms⟩ =
          .ok [("m1", (Activation.Scale (1 / ms)).inverse),
            ("m2", (Activation.Scale (1 / ms)).inverse),
            ("mu", Activation.Exponential.inverse),
            ("alpha", Activation.Linear.inverse)] := rfl
      rw [hM] at hm
      rw [hMi] at hmi
      have hm' := (Except.ok.inj hm).symm
      have hmi' := (Except.ok.inj hmi).symm
      subst hm' hmi'
      refine ⟨rfl, rfl, ?_, ?_, ?_⟩
      · intro p t hpt
        simp only [List.mem_cons, List.not_mem_nil, or_false,
          Prod.mk.injEq] at hpt
        rcases hpt with ⟨hp, ht⟩ | ⟨hp, ht⟩ | ⟨hp, ht⟩ | ⟨hp, ht⟩ <;>
          subst hp <;> subst ht <;> rfl
      · intro p t hpt
        simp only [List.mem_cons, List.not_mem_nil, or_false,
          Prod.mk.injEq] at hpt
        rcases hpt with ⟨hp, ht⟩ | ⟨hp, ht⟩ | ⟨hp, ht⟩ | ⟨hp, ht⟩ <;>
          subst hp <;> subst ht <;> rfl
      · intro p t hpt
        simp only [List.mem_cons, List.not_mem_nil, or_false,
          Prod.mk.injEq] at hpt
        rcases hpt with ⟨hp, ht⟩ | ⟨hp, ht⟩ | ⟨hp, ht⟩ | ⟨hp, ht⟩ <;>
          subst hp <;> subst ht <;> simp

/-- Witness for C10: with sigmoid activation disabled and mass scale 1 both
dictionaries are returned and satisfy the stated properties. -/
theorem get_parameter_transforms_spec_witness :
    ([("m1", Activation.Scale (1 / 1)), ("m2", Activation.Scale (1 / 1)),
      ("mu", Activation.Exponential),
      ("alpha", Activation.Linear)].map Prod.fst = SEMI_WEAKLY_PARAMETERS) ∧
    (∀ p t, (p, t) ∈ [("m1", Activation.Scale (1 / 1)),
      ("m2", Activation.Scale (1 / 1)),
      ("mu", Activation.Exponential), ("alpha", Activation.Linear)] →
      get_parameter_transform ⟨false, 1⟩ p = .ok t) := by
  have h := get_parameter_transforms_spec ⟨false, 1⟩
    [("m1", Activation.Scale (1 / 1)), ("m2", Activation.Scale (1 / 1)),
      ("mu", Activation.Exponential), ("alpha", Activation.Linear)]
    [("m1", (Activation.Scale (1 / 1)).inverse),
      ("m2", (Activation.Scale (1 / 1)).inverse),
      ("mu", Activation.Exponential.inverse),
      ("alpha", Activation.Linear.inverse)]
    (by rfl) (by rfl)
  exact ⟨h.1, h.2.2.1⟩

/-- Evaluation of `get_model_trainer` on kwargs whose `high_level` entry is
a boolean: the result does not depend on that boolean. -/
theorem get_model_trainer_updateKey_eval (mt : String)
    (kwargs : String → Option PyVal) (b : Bool) :
    get_model_trainer mt (updateKey kwargs "high_level" (.bool b)) =
      Except.ok ⟨mt,
        fun k => if k = "high_level" then Option.none
          else if k ∈ kCommonKeys then kwargs k else Option.none,
        fun k => if k ∈ kCommonKeys then Option.none else kwargs k⟩ := by
  have h0 : get_model_trainer mt (updateKey kwargs "high_level" (.bool b)) =
      Except.ok ⟨mt,
        fun k => if k = "high_level" then Option.none
          else if k ∈ kCommonKeys then
            updateKey kwargs "high_level" (.bool b) k else Option.none,
        fun k => if k ∈ kCommonKeys then Option.none
          else updateKey kwargs "high_level" (.bool b) k⟩ := rfl
  rw [h0]
  have h1 : (fun k => if k = "high_level" then Option.none
      else if k ∈ kCommonKeys then
        updateKey kwargs "high_level" (.bool b) k else Option.none) =
      (fun k => if k = "high_level" then Option.none
        else if k ∈ kCommonKeys then kwargs k else Option.none) := by
    funext k
    by_cases hk : k = "high_level"
    · simp [hk]
    · simp [updateKey, hk]
  have h2 : (fun k => if k ∈ kCommonKeys then Option.none
      else updateKey kwargs "high_level" (.bool b) k) =
      (fun k => if k ∈ kCommonKeys then Option.none else kwargs k) := by
    funext k
    by_cases hm : k ∈ kCommonKeys
    · simp [hm]
    · have hk : k ≠ "high_level" := by
        rintro rfl
        exact hm (by decide)
      simp [updateKey, hm, hk]
  rw [h1, h2]

/-- Claim C9 -- Two invocations of `get_model_trainer` whose kwargs differ only
in the boolean value of `high_level` construct the `ModelTrainer` with
identical arguments: the flag has no effect on the returned trainer. -/
theorem get_model_trainer_high_level_no_effect (mt : String)
    (kwargs : String → Option PyVal) (b1 b2 : Bool) :
    get_model_trainer mt (updateKey kwargs "high_level" (.bool b1)) =
      get_model_trainer mt (updateKey kwargs "high_level" (.bool b2)) := by
  rw [get_model_trainer_updateKey_eval mt kwargs b1,
    get_model_trainer_updateKey_eval mt kwargs b2]

/-- Claim C3 -- Every requested metric name of the form `sic_<N>` admitted by the
CLI is translated to the request `(name, threshold_significance, fpr_thres = 1/N)`
with threshold exactly `1/N`, and every other admissible metric name
(`auc`, `accuracy`, `log_loss`) is passed through unchanged. -/
theorem get_metric_translation :
    get_metric "sic_1e3" =
      Except.ok (MetricSpec.request "sic_1e3" "threshold_significance" (1 / 1000)) ∧
    get_metric "sic_1e4" =
      Except.ok (MetricSpec.request "sic_1e4" "threshold_significance" (1 / 10000)) ∧
    get_metric "sic_1e5" =
      Except.ok (MetricSpec.request "sic_1e5" "threshold_significance" (1 / 100000)) ∧
    get_metric "auc" = Except.ok (MetricSpec.plain "auc") ∧
    get_metric "accuracy" = Except.ok (MetricSpec.plain "accuracy") ∧
    get_metric "log_loss" = Except.ok (MetricSpec.plain "log_loss") ∧
    metricChoices = ["auc", "accuracy", "log_loss", "sic_1e3", "sic_1e4", "sic_1e5"] := by
  have h3 : parseFloatRep "1e3" = Option.some ⟨false, 1, 0, 0, false, 3⟩ := by decide
  have h4 : parseFloatRep "1e4" = Option.some ⟨false, 1, 0, 0, false, 4⟩ := by decide
  have h5 : parseFloatRep "1e5" = Option.some ⟨false, 1, 0, 0, false, 5⟩ := by decide
  have r3 : pyReplace "sic_1e3" "sic_" "" = "1e3" := by decide
  have r4 : pyReplace "sic_1e4" "sic_" "" = "1e4" := by decide
  have r5 : pyReplace "sic_1e5" "sic_" "" = "1e5" := by decide
  have s3 : pyStartsWith "sic_1e3" "sic_" = true := by decide
  have s4 : pyStartsWith "sic_1e4" "sic_" = true := by decide
  have s5 : pyStartsWith "sic_1e5" "sic_" = true := by decide
  have sa : pyStartsWith "auc" "sic_" = false := by decide
  have sb : pyStartsWith "accuracy" "sic_" = false := by decide
  have sc : pyStartsWith "log_loss" "sic_" = false := by decide
  refine ⟨?_, ?_, ?_, ?_, ?_, ?_, rfl⟩
  · rw [get_metric, s3, r3]
    simp only [pyFloatOfString, h3, Option.map_some, if_true]
    norm_num [ratOfFloatRep]
  · rw [get_metric, s4, r4]
    simp only [pyFloatOfString, h4, Option.map_some, if_true]
    norm_num [ratOfFloatRep]
  · rw [get_metric, s5, r5]
    simp only [pyFloatOfString, h5, Option.map_some, if_true]
    norm_num [ratOfFloatRep]
  · rw [get_metric, sa]
    simp
  · rw [get_metric, sb]
    simp
  · rw [get_metric, sc]
    simp

theorem lookupParam_setKey {α : Type} (ps : List (String × α)) (k : String)
    (v : α) : lookupParam (setKey ps k v) k = Option.some v := by
  induction ps with
  | nil => simp [setKey, lookupParam]
  | cons hd tl ih =>
      obtain ⟨k', v'⟩ := hd
      by_cases h : k' = k
      · simp [setKey, lookupParam, h]
      · simp [setKey, lookupParam, h, ih]

theorem lookupParam_setKey_ne {α : Type} (ps : List (String × α))
    (k k' : String) (v : α) (h : k ≠ k') :
    lookupParam (setKey ps k' v) k = lookupParam ps k := by
  induction ps with
  | nil => simp [setKey, lookupParam, Ne.symm h]
  | cons hd tl ih =>
      obtain ⟨k'', v''⟩ := hd
      by_cases hh : k'' = k'
      · subst hh
        simp [setKey, lookupParam, Ne.symm h]
      · simp [setKey, lookupParam, hh, ih]

/-- Claim C1 -- With caching enabled and the resolved output file existing, the
landscape command logs the cache hit and returns with no other effect: no
dataset building, no model construction, no landscape evaluation, no
directory creation and no file write. -/
theorem compute_semi_weakly_landscape_cache_hit (cfg : LandscapeConfig)
    (env : LandscapeEnv) (hc : cfg.cache = true)
    (he : env.fs_exists (landscape_outname cfg env) = true) :
    compute_semi_weakly_landscape cfg env =
      [Effect.info ("Cached semi-weakly model landscape output from " ++
        landscape_outname cfg env)] ∧
    (∀ e ∈ compute_semi_weakly_landscape cfg env,
      e ≠ Effect.getDatasets ∧ e ≠ Effect.getModel ∧
      (∀ pe m nb s, e ≠ Effect.evalLandscape pe m nb s) ∧
      (∀ p enc, e ≠ Effect.writeJson p enc) ∧
      (∀ d, e ≠ Effect.makedirs d)) := by
  have ht : compute_semi_weakly_landscape cfg env =
      [Effect.info ("Cached semi-weakly model landscape output from " ++
        landscape_outname cfg env)] := by
    unfold compute_semi_weakly_landscape
    rw [hc, he]
    rfl
  refine ⟨ht, ?_⟩
  intro e hmem
  rw [ht] at hmem
  simp only [List.mem_singleton] at hmem
  subst hmem
  refine ⟨by simp, by simp, ?_, ?_, ?_⟩ <;> intros <;> simp

/-- Witness for C1: a concrete configuration with caching enabled and an
existing output file produces exactly the cache-hit log line. -/
theorem compute_semi_weakly_landscape_cache_hit_witness :
    landscapeCfgCached.cache = true ∧
    landscapeEnvCached.fs_exists
      (landscape_outname landscapeCfgCached landscapeEnvCached) = true ∧
    compute_semi_weakly_landscape landscapeCfgCached landscapeEnvCached =
      [Effect.info ("Cached semi-weakly model landscape output from " ++
        "outputs/landscape/result.json")] :=
  ⟨rfl, rfl,
    (compute_semi_weakly_landscape_cache_hit landscapeCfgCached
      landscapeEnvCached rfl rfl).1⟩

/-- Claim C7 -- When the cache does not short-circuit, the landscape command
builds the datasets and model, evaluates the landscape, creates the parent
directory, and writes exactly one JSON file with the `NpEncoder` encoder
at the path obtained from the resolved parameter dictionary, which carries
the tag, mass point, mu, alpha and split index of the invocation. -/
theorem compute_semi_weakly_landscape_writes (cfg : LandscapeConfig)
    (env : LandscapeEnv)
    (h : ¬(cfg.cache = true ∧
      env.fs_exists (landscape_outname cfg env) = true)) :
    compute_semi_weakly_landscape cfg env =
      [Effect.getDatasets, Effect.getModel,
       Effect.evalLandscape cfg.param_expr (landscape_metrics cfg)
         cfg.nbootstrap cfg.seed,
       Effect.makedirs (dirname (landscape_outname cfg env)),
       Effect.writeJson (landscape_outname cfg env) "NpEncoder",
       Effect.info ("Saved semi-weakly model landscape output to " ++
         landscape_outname cfg env)] ∧
    (compute_semi_weakly_landscape cfg env).filter Effect.isWriteJson =
      [Effect.writeJson (landscape_outname cfg env) "NpEncoder"] ∧
    landscape_outname cfg env =
      env.get_file "semi_weakly_landscape"
        (landscape_resolved_parameters cfg env) "train" ∧
    lookupParam (landscape_resolved_parameters cfg env) "tag" =
      Option.some (.str cfg.tag) ∧
    lookupParam (landscape_pre_parameters cfg env) "mass_point" =
      Option.some (.str cfg.mass_point) ∧
    lookupParam (landscape_pre_parameters cfg env) "mu" =
      Option.some (.rat cfg.mu) ∧
    lookupParam (landscape_pre_parameters cfg env) "alpha" =
      Option.some (.rat cfg.alpha) ∧
    lookupParam (landscape_pre_parameters cfg env) "split_index" =
      Option.some (.int cfg.split_index) := by
  have hcond : (cfg.cache && env.fs_exists (landscape_outname cfg env)) = false := by
    cases hc : cfg.cache with
    | false => rfl
    | true =>
        cases hf : env.fs_exists (landscape_outname cfg env) with
        | false => rfl
        | true => exact absurd ⟨hc, hf⟩ h
  have ht : compute_semi_weakly_landscape cfg env =
      [Effect.getDatasets, Effect.getModel,
       Effect.evalLandscape cfg.param_expr (landscape_metrics cfg)
         cfg.nbootstrap cfg.seed,
       Effect.makedirs (dirname (landscape_outname cfg env)),
       Effect.writeJson (landscape_outname cfg env) "NpEncoder",
       Effect.info ("Saved semi-weakly model landscape output to " ++
         landscape_outname cfg env)] := by
    unfold compute_semi_weakly_landscape
    rw [hcond]
    rfl
  refine ⟨ht, ?_, rfl, ?_, ?_, ?_, ?_, ?_⟩
  · rw [ht]
    rfl
  · unfold landscape_resolved_parameters
    exact lookupParam_setKey _ _ _
  · unfold landscape_pre_parameters
    rw [lookupParam_setKey_ne _ _ _ _ (by decide),
      lookupParam_setKey_ne _ _ _ _ (by decide),
      lookupParam_setKey_ne _ _ _ _ (by decide)]
    exact lookupParam_setKey _ _ _
  · unfold landscape_pre_parameters
    rw [lookupParam_setKey_ne _ _ _ _ (by decide),
      lookupParam_setKey_ne _ _ _ _ (by decide)]
    exact lookupParam_setKey _ _ _
  · unfold landscape_pre_parameters
    rw [lookupParam_setKey_ne _ _ _ _ (by decide)]
    exact lookupParam_setKey _ _ _
  · unfold landscape_pre_parameters
    exact lookupParam_setKey _ _ _

/-- Witness for C7: with caching disabled the command performs exactly one
JSON write, at the resolved output path. -/
theorem compute_semi_weakly_landscape_writes_witness :
    ¬(landscapeCfgFresh.cache = true ∧
      landscapeEnvFresh.fs_exists
        (landscape_outname landscapeCfgFresh landscapeEnvFresh) = true) ∧
    (compute_semi_weakly_landscape landscapeCfgFresh
        landscapeEnvFresh).filter Effect.isWriteJson =
      [Effect.writeJson "outputs/landscape/result.json" "NpEncoder"] :=
  ⟨fun hh => Bool.noConfusion hh.1,
    (compute_semi_weakly_landscape_writes landscapeCfgFresh landscapeEnvFresh
      (fun hh => Bool.noConfusion hh.1)).2.1⟩

/-- Claim C2 -- When the parsed model type's key is absent from the loaded
results, `gather_model_results` warns and returns: no trial merging, no
metric decoration, no directory creation and no output file of any kind. -/
theorem gather_model_results_empty (cfg : GatherConfig) (env : GatherEnv)
    (hk : (env.parse cfg.model_type).key ∉ env.dfs_keys) :
    gather_model_results cfg env =
      [Effect.loadResults, Effect.warning "No results to save. Skipping."] ∧
    (∀ e ∈ gather_model_results cfg env,
      (∀ t s w, e ≠ Effect.mergeTrials t s w) ∧
      (∀ ms, e ≠ Effect.decorateResults ms) ∧
      (∀ p d, e ≠ Effect.saveParquet p d) ∧
      (∀ d, e ≠ Effect.makedirs d) ∧
      (∀ p enc, e ≠ Effect.writeJson p enc)) := by
  have ht : gather_model_results cfg env =
      [Effect.loadResults, Effect.warning "No results to save. Skipping."] := by
    unfold gather_model_results
    rw [if_pos hk]
  refine ⟨ht, ?_⟩
  intro e hmem
  rw [ht] at hmem
  simp only [List.mem_cons, List.not_mem_nil, or_false] at hmem
  rcases hmem with hmem | hmem <;> subst hmem <;>
    exact ⟨by intros; simp, by intros; simp, by intros; simp,
      by intros; simp, by intros; simp⟩

/-- Witness for C2: with an empty result store the command produces only
the load step and the warning. -/
theorem gather_model_results_empty_witness :
    (gatherEnvEmpty.parse gatherCfgW.model_type).key ∉ gatherEnvEmpty.dfs_keys ∧
    gather_model_results gatherCfgW gatherEnvEmpty =
      [Effect.loadResults, Effect.warning "No results to save. Skipping."] :=
  ⟨by decide,
    (gather_model_results_empty gatherCfgW gatherEnvEmpty (by decide)).1⟩

/-- Claim C4 -- With a non-empty result set, a trial-merging step occurs in the
trace if and only if the parsed model type is `SEMI_WEAKLY` or
`IDEAL_WEAKLY`, and in that case it carries the configured `topk` and
reduce methods. -/
theorem gather_model_results_merge_iff (cfg : GatherConfig) (env : GatherEnv)
    (hk : (env.parse cfg.model_type).key ∈ env.dfs_keys) :
    ((∃ t s w, Effect.mergeTrials t s w ∈ gather_model_results cfg env) ↔
      (env.parse cfg.model_type = ModelType.SEMI_WEAKLY ∨
        env.parse cfg.model_type = ModelType.IDEAL_WEAKLY)) ∧
    ((env.parse cfg.model_type = ModelType.SEMI_WEAKLY ∨
        env.parse cfg.model_type = ModelType.IDEAL_WEAKLY) →
      Effect.mergeTrials cfg.topk cfg.score_reduce_method
        cfg.weight_reduce_method ∈ gather_model_results cfg env) := by
  have hu : gather_model_results cfg env =
      [Effect.loadResults] ++
      (if env.parse cfg.model_type = ModelType.SEMI_WEAKLY ∨
          env.parse cfg.model_type = ModelType.IDEAL_WEAKLY
        then [Effect.mergeTrials cfg.topk cfg.score_reduce_method
          cfg.weight_reduce_method]
        else []) ++
      (match cfg.metrics.mapM get_metric with
       | Except.error e => [Effect.raised e]
       | Except.ok mspecs =>
          [Effect.decorateResults mspecs,
           Effect.makedirs env.combined_dir] ++
          (match formatTemplate cfg.filename (gather_format_keys cfg env) with
           | Except.error e => [Effect.raised e]
           | Except.ok fname =>
              [Effect.saveParquet (joinPath env.combined_dir fname)
                cfg.detailed])) := by
    unfold gather_model_results
    rw [if_neg (not_not_intro hk)]
  rw [hu]
  by_cases hsw : env.parse cfg.model_type = ModelType.SEMI_WEAKLY ∨
      env.parse cfg.model_type = ModelType.IDEAL_WEAKLY <;>
    rcases hmm : cfg.metrics.mapM get_metric with e | mspecs <;>
    rcases hft : formatTemplate cfg.filename (gather_format_keys cfg env)
      with e2 | fn <;>
    simp [hsw]

/-- Witness for C4: with stored semi-weakly results the merge step with the
configured arguments is in the trace. -/
theorem gather_model_results_merge_iff_witness :
    (gatherEnvFull.parse gatherCfgW.model_type).key ∈ gatherEnvFull.dfs_keys ∧
    Effect.mergeTrials 5 "mean" "median" ∈
      gather_model_results gatherCfgW gatherEnvFull :=
  ⟨by decide,
    (gather_model_results_merge_iff gatherCfgW gatherEnvFull
      (by decide)).2 (Or.inl rfl)⟩

/-- Counterexample to claim C6 as stated: an invocation with a non-empty
result set and admissible metrics whose filename template references the
unknown substitution key `bogus` raises a `KeyError` at the formatting
step and writes no Parquet file at all. -/
theorem gather_model_results_output_counterexample :
    (gatherEnvFull.parse gatherCfgBadTemplate.model_type).key ∈
      gatherEnvFull.dfs_keys ∧
    gatherCfgBadTemplate.metrics.mapM get_metric =
      Except.ok [MetricSpec.plain "auc", MetricSpec.plain "log_loss"] ∧
    Effect.raised (PyError.keyError "bogus") ∈
      gather_model_results gatherCfgBadTemplate gatherEnvFull ∧
    (gather_model_results gatherCfgBadTemplate gatherEnvFull).filter
      Effect.isSaveParquet = [] := by
  refine ⟨by decide, rfl, ?_, ?_⟩ <;> decide

/-- Claim C6 (amended) -- With a non-empty result set, admissible metrics
and a filename template that formats successfully against the
substitution keys, exactly one Parquet file is written, at the formatted
filename joined onto the `combined_result` directory (created just before
the write), with the substitution keys carrying the parsed model type's
key and the `detailed` flag passed through to the save. -/
theorem gather_model_results_output (cfg : GatherConfig) (env : GatherEnv)
    (mspecs : List MetricSpec) (fname : String)
    (hk : (env.parse cfg.model_type).key ∈ env.dfs_keys)
    (hm : cfg.metrics.mapM get_metric = Except.ok mspecs)
    (hf : formatTemplate cfg.filename (gather_format_keys cfg env) =
      Except.ok fname) :
    gather_model_results cfg env =
      [Effect.loadResults] ++
      (if env.parse cfg.model_type = ModelType.SEMI_WEAKLY ∨
          env.parse cfg.model_type = ModelType.IDEAL_WEAKLY
        then [Effect.mergeTrials cfg.topk cfg.score_reduce_method
          cfg.weight_reduce_method]
        else []) ++
      [Effect.decorateResults mspecs,
       Effect.makedirs env.combined_dir,
       Effect.saveParquet (joinPath env.combined_dir fname) cfg.detailed] ∧
    (gather_model_results cfg env).filter Effect.isSaveParquet =
      [Effect.saveParquet (joinPath env.combined_dir fname) cfg.detailed] ∧
    gather_outname cfg env = Except.ok (joinPath env.combined_dir fname) ∧
    lookupParam (gather_format_keys cfg env) "model_type" =
      Option.some (env.parse cfg.model_type).key := by
  have ht : gather_model_results cfg env =
      [Effect.loadResults] ++
      (if env.parse cfg.model_type = ModelType.SEMI_WEAKLY ∨
          env.parse cfg.model_type = ModelType.IDEAL_WEAKLY
        then [Effect.mergeTrials cfg.topk cfg.score_reduce_method
          cfg.weight_reduce_method]
        else []) ++
      [Effect.decorateResults mspecs,
       Effect.makedirs env.combined_dir,
       Effect.saveParquet (joinPath env.combined_dir fname) cfg.detailed] := by
    unfold gather_model_results
    rw [if_neg (not_not_intro hk), hm, hf]
    rfl
  refine ⟨ht, ?_, ?_, ?_⟩
  · rw [ht]
    by_cases hsw : env.parse cfg.model_type = ModelType.SEMI_WEAKLY ∨
        env.parse cfg.model_type = ModelType.IDEAL_WEAKLY
    · rw [if_pos hsw]
      rfl
    · rw [if_neg hsw]
      rfl
  · unfold gather_outname
    rw [hf]
    rfl
  · unfold gather_format_keys
    exact lookupParam_setKey _ _ _

/-- Witness for the amended C6: a concrete invocation with the default
template writes exactly one Parquet file at the formatted path under
`combined_result`. -/
theorem gather_model_results_output_witness :
    (gatherEnvFull.parse gatherCfgW.model_type).key ∈ gatherEnvFull.dfs_keys ∧
    gatherCfgW.metrics.mapM get_metric =
      Except.ok [MetricSpec.plain "auc", MetricSpec.plain "log_loss"] ∧
    formatTemplate gatherCfgW.filename
        (gather_format_keys gatherCfgW gatherEnvFull) =
      Except.ok "semi_weakly_high_level_qq.parquet" ∧
    (gather_model_results gatherCfgW gatherEnvFull).filter
        Effect.isSaveParquet =
      [Effect.saveParquet
        "outputs/combined_result/semi_weakly_high_level_qq.parquet" false] :=
  ⟨by decide, rfl, rfl,
    (gather_model_results_output gatherCfgW gatherEnvFull
      [MetricSpec.plain "auc", MetricSpec.plain "log_loss"]
      "semi_weakly_high_level_qq.parquet" (by decide) rfl rfl).2.1⟩

